import Mathlib

/-!
Verification development for the CLAP (CLever Audio Plugin) interface,
`include/clap/clap.h` and `include/clap/ext/draft/transport-control.h`.

The repository is a pure C interface definition: it declares enums, data
records and function-pointer tables together with documented behavioral
contracts, but ships no executable implementation.  The data model below is
translated from the header declarations; every behavioral operation
(activate, deactivate, process, extension query, create_plugin, the host's
steady clock) is a reference model built from the specification's words,
marked `Modelled from the spec:` in its doc comment.
-/

----------------------------------------------------------------
-- Data model, from include/clap/clap.h
----------------------------------------------------------------

/-- The process status enum, clap.h lines 44-53.  The three enumerators carry
the explicit integer codes 0, 1, 2 from the source. -/
inductive clap_process_status
  | CLAP_PROCESS_ERROR
  | CLAP_PROCESS_CONTINUE
  | CLAP_PROCESS_SLEEP
deriving DecidableEq

/-- The integer value each enumerator is given in the source enum
(clap.h lines 46, 49, 52). -/
def clap_process_status.code : clap_process_status → Nat
  | .CLAP_PROCESS_ERROR => 0
  | .CLAP_PROCESS_CONTINUE => 1
  | .CLAP_PROCESS_SLEEP => 2

/-- clap_audio_buffer, clap.h lines 55-66.  The two sample pointers `data32`
(float channels) and `data64` (double channels) are modelled as optional
channel lists of exact rational sample values; `none` models a null pointer.
The claims under study depend only on pointer presence and on the literal
sample value 0, not on IEEE rounding, so one exact sample type serves for
both precisions. -/
structure clap_audio_buffer where
  data32 : Option (List (List Rat))
  data64 : Option (List (List Rat))
  channel_count : Int
  latency : Nat
  constant_mask : Nat
  port_id : Nat
deriving DecidableEq

/-- clap_process, clap.h lines 68-88.  The C counts `audio_inputs_count` and
`audio_outputs_count` are the lengths of the buffer lists (definitions
below); `events.h` is not part of the sources, so per the specification an
event list is an ordered sequence of time-stamped records, reduced here to
the list of its timestamps. -/
structure clap_process where
  steady_time : Int
  frames_count : Int
  has_transport : Bool
  audio_inputs : List clap_audio_buffer
  audio_outputs : List clap_audio_buffer
  in_events : List Int
  out_events : List Int
deriving DecidableEq

/-- audio_inputs_count field of clap_process (clap.h line 82). -/
def clap_process.audio_inputs_count (p : clap_process) : Int :=
  p.audio_inputs.length

/-- audio_outputs_count field of clap_process (clap.h line 83). -/
def clap_process.audio_outputs_count (p : clap_process) : Int :=
  p.audio_outputs.length

/-- clap_host, clap.h lines 94-108, data fields.  The reserved `host_data`
pointer is omitted and the `extension` function pointer is modelled by
`clap_host.extension_query` below. -/
structure clap_host where
  clap_version : Int
  name : String
  vendor : String
  url : String
  version : String
deriving DecidableEq

/-- clap_plugin_descriptor, clap.h lines 133-146. -/
structure clap_plugin_descriptor where
  clap_version : Int
  id : String
  name : String
  vendor : String
  url : String
  manual_url : String
  support_url : String
  version : String
  description : String
  plugin_type : Nat
deriving DecidableEq

----------------------------------------------------------------
-- Reference plugin lifecycle model
----------------------------------------------------------------

/-- Modelled from the spec: the lifecycle states of a plugin instance
(section 4.3; the header only documents them in comments on clap_plugin,
clap.h lines 148-169).  The transient Processing sub-state of Active is not
distinguished because no claim observes it. -/
inductive LifeState
  | Created
  | Active
  | Deactivated
  | Destroyed
deriving DecidableEq

/-- Modelled from the spec: a plugin instance holds a reference to its
descriptor, a lifecycle state and its sample-rate-dependent internal state
(the header only declares the opaque `plugin_data` pointer,
clap.h line 151). -/
structure PluginModel where
  desc : clap_plugin_descriptor
  life : LifeState
  sampleRate : Option Int
deriving DecidableEq

/-- Modelled from the spec: a freshly created instance is in the Created
state with no sample-rate-dependent state. -/
def freshInstance (d : clap_plugin_descriptor) : PluginModel :=
  { desc := d, life := LifeState.Created, sampleRate := none }

/-- Modelled from the spec: `activate(plugin, sample_rate)` (declared
clap.h line 159).  Created/Deactivated go to Active on success (returns
true) and record the sample rate; on failure (wrong lifecycle state, or an
unsupported rate, modelled as a non-positive one) it returns false and the
instance stays exactly in its prior state. -/
def PluginModel.activate (p : PluginModel) (sample_rate : Int) : Bool × PluginModel :=
  if (p.life = LifeState.Created ∨ p.life = LifeState.Deactivated) ∧ 0 < sample_rate then
    (true, { desc := p.desc, life := LifeState.Active, sampleRate := some sample_rate })
  else
    (false, p)

/-- Modelled from the spec: `deactivate(plugin)` (declared clap.h line 160).
Active goes to Deactivated, releasing the sample-rate-dependent state so the
instance resets to the equivalent of Created. -/
def PluginModel.deactivate (p : PluginModel) : PluginModel :=
  if p.life = LifeState.Active then
    { desc := p.desc, life := LifeState.Deactivated, sampleRate := none }
  else
    p

/-- Modelled from the spec: `destroy(plugin)` (declared clap.h line 155),
legal from any state, deactivating implicitly if needed. -/
def PluginModel.destroy (p : PluginModel) : PluginModel :=
  { desc := p.desc, life := LifeState.Destroyed, sampleRate := none }

/-- Result of one process call: a status from the source enum together with
the produced output buffers. -/
structure ProcessResult where
  status : clap_process_status
  outputs : List clap_audio_buffer
deriving DecidableEq

/-- Modelled from the spec: `process(plugin, context)` (declared clap.h
line 164) for the reference passthrough plugin of the specification's test
scenario.  Outside Active the call is a contract violation and the model
fails loudly with ERROR; while Active it passes the input buffers through
and reports CONTINUE, or SLEEP when there are no input events and every
input buffer is silent (neither sample pointer set), since then it has
nothing to contribute until the next event. -/
def PluginModel.process (p : PluginModel) (ctx : clap_process) : ProcessResult :=
  if p.life = LifeState.Active then
    if ctx.in_events.isEmpty &&
        ctx.audio_inputs.all (fun b => b.data32.isNone && b.data64.isNone) then
      { status := clap_process_status.CLAP_PROCESS_SLEEP, outputs := ctx.audio_inputs }
    else
      { status := clap_process_status.CLAP_PROCESS_CONTINUE, outputs := ctx.audio_inputs }
  else
    { status := clap_process_status.CLAP_PROCESS_ERROR, outputs := [] }

/-- Modelled from the spec: the host discards a call's output buffers
exactly when process reported ERROR (clap.h line 45 comment). -/
def hostDiscardsOutput : clap_process_status → Bool
  | clap_process_status.CLAP_PROCESS_ERROR => true
  | _ => false

/-- Modelled from the spec: a SLEEP return tells the host no further process
calls are required until the next input event (clap.h line 51 comment). -/
def noFurtherCallsNeeded : clap_process_status → Bool
  | clap_process_status.CLAP_PROCESS_SLEEP => true
  | _ => false

----------------------------------------------------------------
-- Extension (capability) queries
----------------------------------------------------------------

/-- The extension identifier published by
include/clap/ext/draft/transport-control.h line 7 (the source names the
constant CLAP_EXT_CV). -/
def CLAP_EXT_CV : String := "clap.transport-control.draft/0"

/-- The identifier of the audio-ports capability referenced by the comment
on clap_process (clap.h line 75, clap_plugin_audio_ports). -/
def CLAP_EXT_AUDIO_PORTS : String := "clap.audio-ports"

/-- Modelled from the spec: the extension identifiers the reference plugin
recognizes. -/
def pluginSupportedExtensionIds : List String := [CLAP_EXT_AUDIO_PORTS]

/-- Modelled from the spec: the extension identifiers the reference host
recognizes; transport-control is the host-side example extension. -/
def hostSupportedExtensionIds : List String := [CLAP_EXT_CV]

/-- A capability handle returned by an extension query: the identifier it
answers, plus the observable value it exposes (the instance's recorded
sample rate for plugin-side capabilities, none for host-side ones). -/
structure ExtCap where
  cap_id : String
  observed_sample_rate : Option Int
deriving DecidableEq

/-- Modelled from the spec: `plugin->extension(plugin, id)` (declared
clap.h line 168): a pure lookup, callable in every lifecycle state,
returning a capability for a recognized identifier and nothing otherwise. -/
def PluginModel.extension (p : PluginModel) (e_id : String) : Option ExtCap :=
  if e_id ∈ pluginSupportedExtensionIds then
    some { cap_id := e_id, observed_sample_rate := p.sampleRate }
  else
    none

/-- Modelled from the spec: `host->extension(host, extension_id)` (declared
clap.h line 107): the same pure lookup on the host side. -/
def clap_host.extension_query (_h : clap_host) (e_id : String) : Option ExtCap :=
  if e_id ∈ hostSupportedExtensionIds then
    some { cap_id := e_id, observed_sample_rate := none }
  else
    none

----------------------------------------------------------------
-- Entry point / plugin registry model
----------------------------------------------------------------

/-- Modelled from the spec: the process-wide entry record's state after
`init`: the list of plugin descriptors this binary exposes. -/
structure EntryModel where
  descriptors : List clap_plugin_descriptor
deriving DecidableEq

/-- Modelled from the spec: `get_plugin_count()` (declared clap.h
line 184). -/
def EntryModel.get_plugin_count (e : EntryModel) : Int :=
  e.descriptors.length

/-- Modelled from the spec: `get_plugin_descriptor(host, index)` (declared
clap.h line 190); null for an out-of-range index. -/
def EntryModel.get_plugin_descriptor (e : EntryModel) (i : Int) :
    Option clap_plugin_descriptor :=
  if i < 0 then none else e.descriptors.get? i.toNat

/-- Modelled from the spec: `create_plugin(host, plugin_id)` (declared
clap.h line 196): instantiate the plugin whose descriptor identifier
matches `plugin_id` exactly; null when no descriptor matches or when the
host's declared protocol version mismatches the descriptor's. -/
def EntryModel.create_plugin (e : EntryModel) (host : clap_host)
    (plugin_id : String) : Option PluginModel :=
  match e.descriptors.find? (fun d => d.id == plugin_id) with
  | none => none
  | some d =>
    if host.clap_version = d.clap_version then
      some (freshInstance d)
    else
      none

----------------------------------------------------------------
-- Host-side process driver: buffers and the steady clock
----------------------------------------------------------------

/-- Modelled from the spec: the three ways a host fills one audio buffer —
single-precision data, double-precision data, or no data at all (silent,
implied zero), per the comment on clap_audio_buffer (clap.h lines 56-57):
either data32 or data64 will be set, but not both. -/
inductive BufferData
  | f32 (channels : List (List Rat))
  | f64 (channels : List (List Rat))
  | silent (channel_count : Nat)
deriving DecidableEq

/-- Modelled from the spec: how the host materializes one buffer from its
chosen data, setting exactly one sample pointer, or neither. -/
def mkAudioBuffer (bd : BufferData) (lat : Nat) (mask : Nat) (pid : Nat) :
    clap_audio_buffer :=
  match bd with
  | BufferData.f32 d =>
    { data32 := some d, data64 := none, channel_count := d.length,
      latency := lat, constant_mask := mask, port_id := pid }
  | BufferData.f64 d =>
    { data32 := none, data64 := some d, channel_count := d.length,
      latency := lat, constant_mask := mask, port_id := pid }
  | BufferData.silent n =>
    { data32 := none, data64 := none, channel_count := n,
      latency := lat, constant_mask := mask, port_id := pid }

/-- Modelled from the spec: the conformance check of section 8 — flag any
buffer in which both sample-precision pointers are set. -/
def precisionExclusive (b : clap_audio_buffer) : Bool :=
  !(b.data32.isSome && b.data64.isSome)

/-- Modelled from the spec: how the host assembles the process context for
one call from the buffer data it chose for each port. -/
def mkClapProcess (st fc : Int) (ht : Bool) (ins outs : List BufferData)
    (ie oe : List Int) : clap_process :=
  { steady_time := st, frames_count := fc, has_transport := ht,
    audio_inputs := ins.map (fun bd => mkAudioBuffer bd 0 0 0),
    audio_outputs := outs.map (fun bd => mkAudioBuffer bd 0 0 0),
    in_events := ie, out_events := oe }

/-- Modelled from the spec: reading sample `frame` of channel `ch` from a
buffer, following the documented rule on clap_audio_buffer (clap.h
lines 56-58): use data32 if set, otherwise data64 if set, otherwise the
value is 0 for each sample. -/
def clap_audio_buffer.sampleAt (b : clap_audio_buffer) (ch frame : Nat) : Rat :=
  match b.data32 with
  | some d => (d.getD ch []).getD frame 0
  | none =>
    match b.data64 with
    | some d => (d.getD ch []).getD frame 0
    | none => 0

/-- Modelled from the spec: the host's steady sample-time clock driving a
sequence of process calls on one instance.  Each list entry is one call,
giving its frames_count and the amount `gap` by which the host advances the
steady clock before the next call — a nonnegative amount of the host's
choosing, not tied to frames_count (section 8, monotonicity). -/
def hostRun (t0 : Int) (calls : List (Nat × Nat)) : List clap_process :=
  match calls with
  | [] => []
  | (fc, gap) :: rest =>
    mkClapProcess t0 (Int.ofNat fc) false [] [] [] [] :: hostRun (t0 + gap) rest

----------------------------------------------------------------
-- Structural model of every operation's return channel
----------------------------------------------------------------

/-- The ten operations declared across clap_plugin (clap.h lines 148-169)
and clap_plugin_entry (clap.h lines 178-197). -/
inductive clap_op
  | init
  | deinit
  | get_plugin_count
  | get_plugin_descriptor
  | create_plugin
  | destroy
  | activate
  | deactivate
  | process
  | extension
deriving DecidableEq

/-- The shapes of return type occurring in those declarations: `void`, a
plain int32 count, a bool success flag, the process-status enum, and a
pointer documented as null on error / unrecognized identifier. -/
inductive ret_kind
  | unit_ret
  | int32_ret
  | bool_ret
  | status_ret
  | nullable_ptr_ret
deriving DecidableEq

/-- The return type of each operation, read off the declarations in
clap.h: init and deinit (lines 179-180) return void, get_plugin_count
(line 184) returns int32_t, get_plugin_descriptor (line 190) and
create_plugin (line 196) return pointers that are null on error, destroy
(line 155) and deactivate (line 160) return void, activate (line 159)
returns bool, process (line 164) returns clap_process_status, and both
extension queries (lines 107, 168) return a pointer that is null for an
unrecognized identifier. -/
def clap_op.ret : clap_op → ret_kind
  | clap_op.init => ret_kind.unit_ret
  | clap_op.deinit => ret_kind.unit_ret
  | clap_op.get_plugin_count => ret_kind.int32_ret
  | clap_op.get_plugin_descriptor => ret_kind.nullable_ptr_ret
  | clap_op.create_plugin => ret_kind.nullable_ptr_ret
  | clap_op.destroy => ret_kind.unit_ret
  | clap_op.activate => ret_kind.bool_ret
  | clap_op.deactivate => ret_kind.unit_ret
  | clap_op.process => ret_kind.status_ret
  | clap_op.extension => ret_kind.nullable_ptr_ret

/-- Whether a return shape gives the callee a way to signal failure: a void
return and a plain count cannot; a bool, the status enum (which contains
ERROR), and a nullable pointer can. -/
def ret_kind.can_signal_failure : ret_kind → Bool
  | ret_kind.unit_ret => false
  | ret_kind.int32_ret => false
  | ret_kind.bool_ret => true
  | ret_kind.status_ret => true
  | ret_kind.nullable_ptr_ret => true

----------------------------------------------------------------
-- Concrete instances used by the witnesses
----------------------------------------------------------------

/-- The plugin identifier of the specification's test scenario. -/
def passthroughId : String := "test.passthrough"

/-- An identifier absent from the descriptor enumeration. -/
def missingIdExample : String := "test.missing"

/-- The unrecognized extension identifier of the specification's
scenario. -/
def unknownIdExample : String := "unknown.id/0"

/-- A concrete descriptor for the reference passthrough plugin.  The
protocol version 1 stands in for CLAP_VERSION (macros.h is not among the
sources). -/
def testDescriptor : clap_plugin_descriptor :=
  { clap_version := 1, id := passthroughId, name := "Passthrough",
    vendor := "test", url := "", manual_url := "", support_url := "",
    version := "1.0.0", description := "reference passthrough",
    plugin_type := 2 }

/-- A concrete host whose declared protocol version matches the
descriptor's. -/
def testHost : clap_host :=
  { clap_version := 1, name := "TestHost", vendor := "test", url := "",
    version := "1.0.0" }

/-- A concrete entry record exposing exactly the passthrough plugin. -/
def testEntry : EntryModel :=
  { descriptors := [testDescriptor] }

/-- A concrete instance already in the Active state, on which a further
activate call fails. -/
def pActiveExample : PluginModel :=
  { desc := testDescriptor, life := LifeState.Active, sampleRate := some 48000 }

----------------------------------------------------------------
-- Helper lemmas
----------------------------------------------------------------

theorem hostRun_head_steady (t0 : Int) (calls : List (Nat × Nat))
    (c : clap_process) (cs : List clap_process)
    (h : hostRun t0 calls = c :: cs) : c.steady_time = t0 := by
  cases calls with
  | nil => simp [hostRun] at h
  | cons hd tl =>
    obtain ⟨fc, gap⟩ := hd
    simp only [hostRun, List.cons.injEq] at h
    rw [← h.1]
    rfl

theorem hostRun_chain (t0 : Int) (calls : List (Nat × Nat)) :
    List.Chain' (fun a b => a.steady_time ≤ b.steady_time) (hostRun t0 calls) := by
  induction calls generalizing t0 with
  | nil => simp [hostRun]
  | cons hd tl ih =>
    obtain ⟨fc, gap⟩ := hd
    simp only [hostRun]
    cases htl : hostRun (t0 + gap) tl with
    | nil => simp
    | cons c cs =>
      rw [List.chain'_cons]
      constructor
      · have hc : c.steady_time = t0 + gap := hostRun_head_steady _ _ _ _ htl
        rw [hc]
        show t0 ≤ t0 + (gap : Int)
        exact le_add_of_nonneg_right (Int.ofNat_nonneg gap)
      · rw [← htl]
        exact ih (t0 + gap)

----------------------------------------------------------------
-- Claims
----------------------------------------------------------------

/-- C1: every process call on the reference plugin returns exactly one of
the three statuses of the source enum clap_process_status, whose codes are
the source's 0, 1, 2; a return of ERROR is exactly the case in which the
host discards this call's output buffers, and a return of SLEEP is exactly
the case in which no further process call is needed until the next input
event. -/
theorem process_status_trichotomy :
    (∀ (p : PluginModel) (ctx : clap_process),
        (p.process ctx).status = clap_process_status.CLAP_PROCESS_ERROR ∨
        (p.process ctx).status = clap_process_status.CLAP_PROCESS_CONTINUE ∨
        (p.process ctx).status = clap_process_status.CLAP_PROCESS_SLEEP) ∧
    (clap_process_status.CLAP_PROCESS_ERROR.code = 0 ∧
     clap_process_status.CLAP_PROCESS_CONTINUE.code = 1 ∧
     clap_process_status.CLAP_PROCESS_SLEEP.code = 2) ∧
    (∀ s, hostDiscardsOutput s = true ↔ s = clap_process_status.CLAP_PROCESS_ERROR) ∧
    (∀ s, noFurtherCallsNeeded s = true ↔ s = clap_process_status.CLAP_PROCESS_SLEEP) := by
  refine ⟨fun p ctx => ?_, by decide, fun s => by cases s <;> decide,
    fun s => by cases s <;> decide⟩
  generalize (PluginModel.process p ctx).status = s
  cases s <;> simp

/-- C2: when activate returns false the instance is left exactly in its
prior state, and in particular every value reachable through an extension
query is unchanged; when activate returns true the instance was in the
Created or Deactivated state and is now Active. -/
theorem activate_failure_preserves_state (p : PluginModel) (sample_rate : Int) :
    ((p.activate sample_rate).fst = false →
      (p.activate sample_rate).snd = p ∧
      ∀ e_id : String,
        ((p.activate sample_rate).snd).extension e_id = p.extension e_id) ∧
    ((p.activate sample_rate).fst = true →
      (p.life = LifeState.Created ∨ p.life = LifeState.Deactivated) ∧
      ((p.activate sample_rate).snd).life = LifeState.Active) := by
  by_cases h : (p.life = LifeState.Created ∨ p.life = LifeState.Deactivated) ∧
      0 < sample_rate
  · constructor
    · intro hf
      simp [PluginModel.activate, h] at hf
    · intro _
      exact ⟨h.1, by simp [PluginModel.activate, h]⟩
  · constructor
    · intro _
      refine ⟨by simp [PluginModel.activate, h], fun e_id => ?_⟩
      simp [PluginModel.activate, h]
    · intro ht
      simp [PluginModel.activate, h] at ht

/-- Witness for C2 at concrete inputs: an already-Active instance on which
activate at 48000 Hz fails and is left unchanged, and a fresh Created
instance on which activate at 48000 Hz succeeds into Active. -/
theorem activate_failure_preserves_state_witness :
    ((pActiveExample.activate 48000).snd = pActiveExample ∧
      ∀ e_id : String,
        ((pActiveExample.activate 48000).snd).extension e_id =
          pActiveExample.extension e_id) ∧
    (((freshInstance testDescriptor).life = LifeState.Created ∨
        (freshInstance testDescriptor).life = LifeState.Deactivated) ∧
      (((freshInstance testDescriptor).activate 48000).snd).life = LifeState.Active) :=
  ⟨(activate_failure_preserves_state pActiveExample 48000).1 (by decide),
   (activate_failure_preserves_state (freshInstance testDescriptor) 48000).2 (by decide)⟩

/-- C4: whenever activate at some sample rate succeeds, deactivating and
activating again at the same sample rate yields exactly the state of the
first activation — which is also exactly the state of a fresh instance of
the same descriptor activated once at that rate, so the round trip resets
all sample-rate-dependent internal state. -/
theorem reactivation_round_trip (p : PluginModel) (sample_rate : Int)
    (h : (p.activate sample_rate).fst = true) :
    (((p.activate sample_rate).snd.deactivate).activate sample_rate =
        p.activate sample_rate) ∧
    (((p.activate sample_rate).snd.deactivate).activate sample_rate =
        (freshInstance p.desc).activate sample_rate) := by
  by_cases hc : (p.life = LifeState.Created ∨ p.life = LifeState.Deactivated) ∧
      0 < sample_rate
  · constructor <;>
      simp [PluginModel.activate, PluginModel.deactivate, freshInstance, hc, hc.2]
  · simp [PluginModel.activate, hc] at h

/-- Witness for C4: the round trip at 48000 Hz on a fresh passthrough
instance. -/
theorem reactivation_round_trip_witness :
    ((((freshInstance testDescriptor).activate 48000).snd.deactivate).activate 48000 =
        (freshInstance testDescriptor).activate 48000) ∧
    ((((freshInstance testDescriptor).activate 48000).snd.deactivate).activate 48000 =
        (freshInstance (freshInstance testDescriptor).desc).activate 48000) :=
  reactivation_round_trip (freshInstance testDescriptor) 48000 (by decide)

/-- C3: every audio buffer the host supplies in a process context it
assembled never has both the single-precision and the double-precision
sample pointer set, and the conformance check accepts it. -/
theorem audio_buffer_precision_exclusive (st fc : Int) (ht : Bool)
    (ins outs : List BufferData) (ie oe : List Int) (b : clap_audio_buffer)
    (hb : b ∈ (mkClapProcess st fc ht ins outs ie oe).audio_inputs ∨
      b ∈ (mkClapProcess st fc ht ins outs ie oe).audio_outputs) :
    ¬(b.data32.isSome ∧ b.data64.isSome) ∧ precisionExclusive b = true := by
  have hex : ∃ bd : BufferData, b = mkAudioBuffer bd 0 0 0 := by
    rcases hb with hin | hout
    · simp only [mkClapProcess, List.mem_map] at hin
      obtain ⟨bd, _, hbd⟩ := hin
      exact ⟨bd, hbd.symm⟩
    · simp only [mkClapProcess, List.mem_map] at hout
      obtain ⟨bd, _, hbd⟩ := hout
      exact ⟨bd, hbd.symm⟩
  obtain ⟨bd, rfl⟩ := hex
  cases bd <;> simp [mkAudioBuffer, precisionExclusive]

/-- Witness for C3: the buffer of a one-input-port context built from
single-precision data. -/
theorem audio_buffer_precision_exclusive_witness :
    ¬((mkAudioBuffer (BufferData.f32 [[1, 2], [3, 4]]) 0 0 0).data32.isSome ∧
        (mkAudioBuffer (BufferData.f32 [[1, 2], [3, 4]]) 0 0 0).data64.isSome) ∧
    precisionExclusive (mkAudioBuffer (BufferData.f32 [[1, 2], [3, 4]]) 0 0 0) = true :=
  audio_buffer_precision_exclusive 0 128 false [BufferData.f32 [[1, 2], [3, 4]]] []
    [] [] (mkAudioBuffer (BufferData.f32 [[1, 2], [3, 4]]) 0 0 0)
    (Or.inl (by simp [mkClapProcess]))

/-- C5: across the sequence of process calls a host run produces for one
instance, steady_time is non-decreasing from each call to the next; and the
run with two 128-frame calls and a zero clock gap shows the second call's
steady_time is not required to advance by frames_count — it may stay
equal. -/
theorem steady_time_nondecreasing :
    (∀ (t0 : Int) (calls : List (Nat × Nat)),
        List.Chain' (fun a b => a.steady_time ≤ b.steady_time) (hostRun t0 calls)) ∧
    (hostRun 0 [(128, 0), (128, 0)]).map clap_process.steady_time = [0, 0] ∧
    (hostRun 0 [(128, 0), (128, 0)]).map clap_process.frames_count = [128, 128] :=
  ⟨fun t0 calls => hostRun_chain t0 calls, by decide, by decide⟩

/-- C6: create_plugin returns an instance only when some enumerated
descriptor's identifier matches the requested id exactly and the host's
protocol version is compatible with it — the instance then being a fresh
Created one for that descriptor — and it returns none whenever no
descriptor's identifier matches, and none whenever the host's declared
protocol version is incompatible with every descriptor. -/
theorem create_plugin_matches_id (e : EntryModel) (host : clap_host)
    (plugin_id : String) :
    (∀ p : PluginModel, e.create_plugin host plugin_id = some p →
        p.desc ∈ e.descriptors ∧ p.desc.id = plugin_id ∧
        host.clap_version = p.desc.clap_version ∧ p.life = LifeState.Created) ∧
    ((∀ d ∈ e.descriptors, d.id ≠ plugin_id) →
        e.create_plugin host plugin_id = none) ∧
    ((∀ d ∈ e.descriptors, host.clap_version ≠ d.clap_version) →
        e.create_plugin host plugin_id = none) := by
  refine ⟨?_, ?_, ?_⟩
  · intro p hp
    unfold EntryModel.create_plugin at hp
    cases hfind : e.descriptors.find? (fun d => d.id == plugin_id) with
    | none => rw [hfind] at hp; exact absurd hp (by simp)
    | some d =>
      rw [hfind] at hp
      by_cases hv : host.clap_version = d.clap_version
      · have hpd : p = freshInstance d := by
          simp only [hv, if_true, Option.some.injEq] at hp
          exact hp.symm
        have hid : d.id = plugin_id := by
          have := List.find?_some hfind
          simpa using this
        have hmem : d ∈ e.descriptors := List.mem_of_find?_eq_some hfind
        subst hpd
        exact ⟨hmem, hid, hv, rfl⟩
      · simp [hv] at hp
  · intro hall
    unfold EntryModel.create_plugin
    have : e.descriptors.find? (fun d => d.id == plugin_id) = none := by
      rw [List.find?_eq_none]
      intro d hd
      simp [hall d hd]
    rw [this]
  · intro hver
    unfold EntryModel.create_plugin
    cases hfind : e.descriptors.find? (fun d => d.id == plugin_id) with
    | none => rfl
    | some d =>
      have hmem : d ∈ e.descriptors := List.mem_of_find?_eq_some hfind
      simp [hver d hmem]

/-- Witness for C6: on the one-plugin test registry, requesting the
passthrough id from the matching host yields the fresh Created instance
(checked through the theorem's first conjunct), and requesting an id absent
from the enumeration yields none. -/
theorem create_plugin_matches_id_witness :
    ((freshInstance testDescriptor).desc ∈ testEntry.descriptors ∧
      (freshInstance testDescriptor).desc.id = passthroughId ∧
      testHost.clap_version = (freshInstance testDescriptor).desc.clap_version ∧
      (freshInstance testDescriptor).life = LifeState.Created) ∧
    testEntry.create_plugin testHost missingIdExample = none :=
  ⟨(create_plugin_matches_id testEntry testHost passthroughId).1
      (freshInstance testDescriptor) (by decide),
   (create_plugin_matches_id testEntry testHost missingIdExample).2.1 (by decide)⟩

/-- C7: an extension query for an identifier outside the recognized set
returns none, on the plugin side — in every lifecycle state, since the
instance is arbitrary — and on the host side alike; both queries are total
pure functions of the embedding, so they cannot fail and have no side
effects. -/
theorem unknown_extension_returns_none (p : PluginModel) (host : clap_host)
    (e_id : String) (h1 : e_id ∉ pluginSupportedExtensionIds)
    (h2 : e_id ∉ hostSupportedExtensionIds) :
    p.extension e_id = none ∧ host.extension_query e_id = none := by
  constructor
  · simp [PluginModel.extension, h1]
  · simp [clap_host.extension_query, h2]

/-- Witness for C7: the specification's scenario — querying the identifier
unknown.id/0 on a live instance and on the test host returns none both
times. -/
theorem unknown_extension_returns_none_witness :
    pActiveExample.extension unknownIdExample = none ∧
    testHost.extension_query unknownIdExample = none :=
  unknown_extension_returns_none pActiveExample testHost unknownIdExample
    (by decide) (by decide)

/-- C9: reading any sample of any channel from a buffer in which neither
the single-precision nor the double-precision pointer is set yields the
value 0. -/
theorem unset_buffer_reads_zero (b : clap_audio_buffer)
    (h32 : b.data32 = none) (h64 : b.data64 = none) (ch frame : Nat) :
    b.sampleAt ch frame = 0 := by
  simp [clap_audio_buffer.sampleAt, h32, h64]

/-- Witness for C9: sample 5 of channel 0 of a silent two-channel buffer
reads 0. -/
theorem unset_buffer_reads_zero_witness :
    (mkAudioBuffer (BufferData.silent 2) 0 0 0).sampleAt 0 5 = 0 :=
  unset_buffer_reads_zero (mkAudioBuffer (BufferData.silent 2) 0 0 0) rfl rfl 0 5

/-- C10: an operation's declared return type is void exactly for init,
deinit, deactivate and destroy — so those four have no failure channel —
and a return type able to signal failure belongs exactly to activate,
process, get_plugin_descriptor, create_plugin and extension. -/
theorem void_ops_have_no_failure_channel :
    (∀ op : clap_op, op.ret = ret_kind.unit_ret ↔
        (op = clap_op.init ∨ op = clap_op.deinit ∨ op = clap_op.deactivate ∨
          op = clap_op.destroy)) ∧
    (∀ op : clap_op, op.ret.can_signal_failure = true ↔
        (op = clap_op.activate ∨ op = clap_op.process ∨
          op = clap_op.get_plugin_descriptor ∨ op = clap_op.create_plugin ∨
          op = clap_op.extension)) := by
  constructor <;> intro op <;> cases op <;> decide
